import Mathlib

/-!
Verification of the Fosen-VPN protocol core (src/vpn_server.py, mirrored in
src/vpn_client.py): packet framing (`VPNProtocol`), the password-based
authenticated cipher (`VPNEncryption`), and the per-connection session
handlers (`ClientHandler`).

Bytes are modelled as `Nat` (each intended `< 256`); byte strings as
`List Nat`.  Randomness (`os.urandom`) is modelled by passing the drawn
bytes as explicit arguments.  The external `cryptography` library's
primitives (PBKDF2, AES-256-GCM) are not part of this repository; they are
modelled by concrete deterministic functions with the library's interface
shape (output lengths, determinism, CTR-style keystream XOR, tag over the
ciphertext), so that every repository-level code path is executable.
-/

namespace FosenVPN

/-! ## VPNProtocol constants (src/vpn_server.py lines 38-52) -/

def MAGIC_BYTES : List Nat := [0xDE, 0xAD, 0xBE, 0xEF]

def VERSION : Nat := 1

def MSG_HANDSHAKE : Nat := 0x01
def MSG_AUTH : Nat := 0x02
def MSG_DATA : Nat := 0x03
def MSG_KEEPALIVE : Nat := 0x04
def MSG_DISCONNECT : Nat := 0x05
def MSG_AUTH_SUCCESS : Nat := 0x06
def MSG_AUTH_FAILURE : Nat := 0x07

def AES_KEY_SIZE : Nat := 32
def AES_IV_SIZE : Nat := 16

/-- Big-endian 4-byte encoding of an unsigned 32-bit integer,
as produced by `struct.pack` format `I` with byte order `!`. -/
def be32 (n : Nat) : List Nat :=
  [n / 2 ^ 24 % 256, n / 2 ^ 16 % 256, n / 2 ^ 8 % 256, n % 256]

/-- `VPNProtocol.create_packet` (src/vpn_server.py lines 54-59):
`struct.pack` with format `!4sBBI` yields the 4 magic bytes, the version
byte, the message-type byte and the big-endian 32-bit payload length;
the payload follows the 10-byte header. -/
def create_packet (msg_type : Nat) (data : List Nat) : List Nat :=
  MAGIC_BYTES ++ [VERSION, msg_type] ++ be32 data.length ++ data

/-- The four `ValueError` cases of `VPNProtocol.parse_packet`, named as in
the specification's taxonomy. -/
inductive ParseError
  | malformedHeader
  | invalidMagic
  | unsupportedVersion
  | truncatedPayload
deriving DecidableEq, Repr

/-- `VPNProtocol.parse_packet` (src/vpn_server.py lines 61-79):
rejects buffers shorter than 10 bytes, then unpacks `data[:10]` as
magic (bytes 0-3), version (byte 4), message type (byte 5) and big-endian
length (bytes 6-9), checks magic, version and that `len(data) >= 10 + length`,
and returns the message type with payload `data[10:10+length]`. -/
def parse_packet (data : List Nat) : Except ParseError (Nat × List Nat) :=
  if data.length < 10 then
    .error .malformedHeader
  else
    let magic := data.take 4
    let version := data.getD 4 0
    let msg_type := data.getD 5 0
    let length := data.getD 6 0 * 2 ^ 24 + data.getD 7 0 * 2 ^ 16 +
      data.getD 8 0 * 2 ^ 8 + data.getD 9 0
    if magic ≠ MAGIC_BYTES then
      .error .invalidMagic
    else if version ≠ VERSION then
      .error .unsupportedVersion
    else if data.length < 10 + length then
      .error .truncatedPayload
    else
      .ok (msg_type, (data.drop 10).take length)

/-! ## Cipher Engine (src/vpn_server.py lines 82-128) -/

/-- Modelled: the byte encoding `str.encode()` of a Python string
(UTF-8; the repository only encodes ASCII identifiers and text). -/
def strToBytes (s : String) : List Nat :=
  s.data.map Char.toNat

/-- Modelled: the external library's PBKDF2-HMAC-SHA256 key derivation
(`VPNEncryption._derive_key`, 100000 iterations, 32-byte output): a
concrete deterministic function of (password bytes, salt) producing
`AES_KEY_SIZE` bytes. -/
def derive_key (password salt : List Nat) : List Nat :=
  (List.range AES_KEY_SIZE).map
    (fun i => (password.sum * 1009 + salt.sum * 101 + i * 37 + 11) % 256)

/-- Modelled: the AES-256-CTR keystream the external library XORs against
the data inside GCM mode: a concrete deterministic function of
(key, nonce) producing `len` bytes. -/
def keystream (key nonce : List Nat) (len : Nat) : List Nat :=
  (List.range len).map
    (fun i => (key.sum * 131 + nonce.sum * 31 + i * 7 + 5) % 256)

/-- Modelled: the 16-byte GCM authentication tag the external library
computes over the ciphertext under (key, nonce). -/
def gcmTag (key nonce ct : List Nat) : List Nat :=
  (List.range 16).map
    (fun i => (key.sum * 257 + nonce.sum * 97 + ct.sum * 13 + i * 3) % 256)

/-- The failure cases of `VPNEncryption.decrypt`, named as in the
specification's taxonomy: the explicit `ValueError` for short blobs and
the library's `InvalidTag` for a tag that does not verify. -/
inductive CipherError
  | invalidCiphertext
  | authenticationFailure
deriving DecidableEq, Repr

/-- `VPNEncryption`'s state (src/vpn_server.py lines 85-88): password
bytes, 16-byte salt and the derived 32-byte key. -/
structure VPNEncryption where
  password : List Nat
  salt : List Nat
  key : List Nat
deriving DecidableEq, Repr

/-- `VPNEncryption.__init__` with the random salt passed explicitly
(`os.urandom(16)` modelled as an input): stores the encoded password,
the salt, and the key derived from them. -/
def VPNEncryption.create (password : String) (salt : List Nat) : VPNEncryption :=
  { password := strToBytes password
    salt := salt
    key := derive_key (strToBytes password) salt }

/-- `VPNEncryption.encrypt` (src/vpn_server.py lines 101-111) with the
fresh random nonce `iv = os.urandom(16)` passed explicitly: AES-256-GCM
produces `ciphertext = data XOR keystream(key, iv)` and the tag over the
ciphertext, and the method returns `iv + tag + ciphertext`. -/
def VPNEncryption.encrypt (e : VPNEncryption) (iv : List Nat) (data : List Nat) :
    List Nat :=
  let ciphertext := List.zipWith Nat.xor data (keystream e.key iv data.length)
  iv ++ gcmTag e.key iv ciphertext ++ ciphertext

/-- `VPNEncryption.decrypt` (src/vpn_server.py lines 113-128): rejects
blobs shorter than `AES_IV_SIZE + 16 = 32` bytes, splits the blob into
`iv = data[:16]`, `tag = data[16:32]`, `ciphertext = data[32:]`, and
returns the GCM decryption, which verifies the tag over the ciphertext
and XORs the keystream back out. -/
def VPNEncryption.decrypt (e : VPNEncryption) (data : List Nat) :
    Except CipherError (List Nat) :=
  if data.length < AES_IV_SIZE + 16 then
    .error .invalidCiphertext
  else
    let iv := data.take AES_IV_SIZE
    let tag := (data.drop AES_IV_SIZE).take 16
    let ciphertext := data.drop (AES_IV_SIZE + 16)
    if gcmTag e.key iv ciphertext = tag then
      .ok (List.zipWith Nat.xor ciphertext (keystream e.key iv ciphertext.length))
    else
      .error .authenticationFailure

/-! ## Session handlers (`ClientHandler`, src/vpn_server.py lines 159-314)

The socket is modelled by returning the list of packets the handler sends,
as (message type, payload bytes) pairs; `json` payloads are modelled at the
level of the fields the handlers actually read. -/

/-- Modelled: `json.loads(bs.decode()).get('username')` — `none` when the
bytes do not decode and parse as a JSON object (the `except: continue`
path of `_handle_auth`).  The JSON surface syntax is abstracted to a
tagged byte format: a leading `0x7B` object marker, the username bytes,
a `0x00` terminator, then the remaining fields. -/
def jsonUsername (bs : List Nat) : Option (List Nat) :=
  match bs with
  | 0x7B :: rest => some (rest.takeWhile (fun b => b ≠ 0))
  | _ => none

/-- Modelled: `json.dumps({'username': u, 'timestamp': t}).encode()` as
built by the client's `_authenticate` (src/vpn_client.py lines 235-239),
in the tagged byte format read back by `jsonUsername`. -/
def authBytes (username : List Nat) (timestamp : Nat) : List Nat :=
  0x7B :: username ++ 0x00 :: be32 timestamp

/-- The handshake response payload
`json.dumps({'server_version': VPNProtocol.VERSION, 'status': 'ok'}).encode()`
(src/vpn_server.py lines 223-226). -/
def handshakeOkBytes : List Nat :=
  strToBytes "\x7b\"server_version\": 1, \"status\": \"ok\"\x7d"

/-- The per-connection state of `ClientHandler` (src/vpn_server.py lines
162-169): the shared user directory (username, password) pairs in
iteration order, the ad hoc `client_salt` attribute set only by a
successful handshake, and the `encryption`, `authenticated`, `username`
and `running` fields. -/
structure Session where
  users : List (String × String)
  client_salt : Option (List Nat)
  encryption : Option VPNEncryption
  authenticated : Bool
  username : Option String
  running : Bool
deriving DecidableEq, Repr

/-- A fresh `ClientHandler` for a connection (src/vpn_server.py lines
162-169): no salt, no engine, unauthenticated, no username, running. -/
def Session.init (users : List (String × String)) : Session :=
  { users := users, client_salt := none, encryption := none,
    authenticated := false, username := none, running := true }

/-- `ClientHandler._handle_handshake` (src/vpn_server.py lines 208-234)
on a payload that parses as JSON, with the fields the handler reads
passed explicitly (`client_version` is `data.get('client_version')`,
`encryption_salt` the base64-decoded salt).  On a version mismatch it
only logs and returns — no packet is sent and no state changes; on a
match it stores the client's salt and replies with a Handshake packet
carrying the server version and status ok. -/
def handle_handshake (s : Session) (client_version : Option Nat)
    (encryption_salt : List Nat) : Session × List (Nat × List Nat) :=
  if client_version ≠ some VERSION then
    (s, [])
  else
    ({ s with client_salt := some encryption_salt },
     [(MSG_HANDSHAKE, handshakeOkBytes)])

/-- The trial-decryption loop of `ClientHandler._handle_auth`
(src/vpn_server.py lines 244-265): for each directory entry in order,
build an engine from that entry's password and the client's salt
(`VPNEncryption(password)` with its salt overwritten by `client_salt`
and the key re-derived), try to decrypt the Auth payload, and accept
the first entry whose decryption verifies and whose decrypted JSON
`username` field equals the entry's username; any failure in the
attempt (`except: continue`) moves on to the next entry. -/
def tryAuth (client_salt : List Nat) (payload : List Nat) :
    List (String × String) → Option (String × VPNEncryption)
  | [] => none
  | (username, password) :: rest =>
    let temp := VPNEncryption.create password client_salt
    match temp.decrypt payload with
    | .ok decrypted =>
      if jsonUsername decrypted = some (strToBytes username) then
        some (username, temp)
      else
        tryAuth client_salt payload rest
    | .error _ => tryAuth client_salt payload rest

/-- `ClientHandler._handle_auth` (src/vpn_server.py lines 236-273): with
no recorded handshake salt it sends AuthFailure; otherwise it runs the
trial-decryption loop, and on a hit sets `username`, fixes `encryption`
to the matching engine, sets `authenticated` and sends AuthSuccess; if
the loop finds no entry it sends AuthFailure and leaves the session
unchanged. -/
def handle_auth (s : Session) (payload : List Nat) :
    Session × List (Nat × List Nat) :=
  match s.client_salt with
  | none => (s, [(MSG_AUTH_FAILURE, [])])
  | some salt =>
    match tryAuth salt payload s.users with
    | some (username, temp) =>
      ({ s with
          username := some username
          encryption := some temp
          authenticated := true },
       [(MSG_AUTH_SUCCESS, [])])
    | none => (s, [(MSG_AUTH_FAILURE, [])])

/-- `ClientHandler._handle_data` (src/vpn_server.py lines 285-303) with
the fresh nonce of the echo's re-encryption passed explicitly.  An
unauthenticated session only logs and returns — nothing is sent and no
state changes.  Otherwise the payload is decrypted with the session
engine (a failure is caught and logged, sending nothing; a missing
engine raises and is likewise caught), the plaintext is decoded, the
echo text `f"Echo: {...}"` is re-encoded — at byte level, the fixed
prefix prepended to the plaintext bytes — encrypted under the same
engine and sent back as a Data packet. -/
def handle_data (s : Session) (echoNonce : List Nat) (payload : List Nat) :
    Session × List (Nat × List Nat) :=
  if s.authenticated = false then
    (s, [])
  else
    match s.encryption with
    | none => (s, [])
    | some enc =>
      match enc.decrypt payload with
      | .error _ => (s, [])
      | .ok decrypted =>
        (s, [(MSG_DATA, enc.encrypt echoNonce (strToBytes "Echo: " ++ decrypted))])

/-- `ClientHandler._handle_keepalive` (src/vpn_server.py lines 305-309):
replies with an empty Keepalive packet. -/
def handle_keepalive (s : Session) : Session × List (Nat × List Nat) :=
  (s, [(MSG_KEEPALIVE, [])])

/-- `ClientHandler._handle_disconnect` (src/vpn_server.py lines 311-314):
clears the running flag. -/
def handle_disconnect (s : Session) : Session × List (Nat × List Nat) :=
  ({ s with running := false }, [])

/-! ## Framing lemmas -/

theorem create_packet_eq (t : Nat) (P : List Nat) :
    create_packet t P = 0xDE :: 0xAD :: 0xBE :: 0xEF :: VERSION :: t ::
      (P.length / 2 ^ 24 % 256) :: (P.length / 2 ^ 16 % 256) ::
      (P.length / 2 ^ 8 % 256) :: (P.length % 256) :: P := rfl

theorem parse_create_append (t : Nat) (P extra : List Nat)
    (hP : P.length < 2 ^ 32) :
    parse_packet (create_packet t P ++ extra) = .ok (t, P) := by
  have hdec : P.length / 16777216 % 256 * 16777216 + P.length / 65536 % 256 * 65536 +
      P.length / 256 % 256 * 256 + P.length % 256 = P.length := by omega
  rw [create_packet_eq]
  simp only [List.cons_append]
  unfold parse_packet
  simp [MAGIC_BYTES, VERSION]
  rw [if_neg (by omega), if_neg (by rw [hdec]; omega), hdec, List.take_left]

/-- C3: Framing round-trip — for every message type byte T and every
payload P, decoding the bytes produced by `create_packet T P` with
`parse_packet` yields exactly `(T, P)`. -/
theorem create_parse_roundtrip (t : Nat) (P : List Nat) (_ht : t < 256)
    (hP : P.length < 2 ^ 32) :
    parse_packet (create_packet t P) = .ok (t, P) := by
  simpa using parse_create_append t P [] hP

/-- Witness for C3 at a concrete packet. -/
theorem create_parse_roundtrip_witness :
    parse_packet (create_packet 3 [10, 20, 30]) = .ok (3, [10, 20, 30]) :=
  create_parse_roundtrip 3 [10, 20, 30] (by decide) (by decide)

/-- C4: Decode failure taxonomy — `parse_packet` fails with
`malformedHeader` on buffers shorter than 10 bytes, with `invalidMagic`
when the first 4 bytes differ from the magic constant, with
`unsupportedVersion` when the magic matches but the version byte differs
from `VERSION`, and with `truncatedPayload` when the header is valid but
fewer than `length` payload bytes follow the 10-byte header. -/
theorem parse_packet_failure_taxonomy :
    (∀ b : List Nat, b.length < 10 → parse_packet b = .error .malformedHeader)
    ∧ (∀ b : List Nat, 10 ≤ b.length → b.take 4 ≠ MAGIC_BYTES →
        parse_packet b = .error .invalidMagic)
    ∧ (∀ b : List Nat, 10 ≤ b.length → b.take 4 = MAGIC_BYTES →
        b.getD 4 0 ≠ VERSION → parse_packet b = .error .unsupportedVersion)
    ∧ (∀ b : List Nat, 10 ≤ b.length → b.take 4 = MAGIC_BYTES →
        b.getD 4 0 = VERSION →
        b.length < 10 + (b.getD 6 0 * 2 ^ 24 + b.getD 7 0 * 2 ^ 16 +
          b.getD 8 0 * 2 ^ 8 + b.getD 9 0) →
        parse_packet b = .error .truncatedPayload) := by
  refine ⟨?_, ?_, ?_, ?_⟩
  · intro b h
    simp [parse_packet, h]
  · intro b h1 h2
    have h1' : ¬ b.length < 10 := by omega
    simp [parse_packet, h1', h2]
  · intro b h1 h2 h3
    have h1' : ¬ b.length < 10 := by omega
    simp only [parse_packet]
    rw [if_neg h1', if_neg (not_not_intro h2), if_pos h3]
  · intro b h1 h2 h3 h4
    have h1' : ¬ b.length < 10 := by omega
    simp only [parse_packet]
    rw [if_neg h1', if_neg (not_not_intro h2), if_neg (not_not_intro h3), if_pos h4]

/-- Witness for C4 at concrete buffers, one per failure case. -/
theorem parse_packet_failure_taxonomy_witness :
    parse_packet [1, 2, 3] = .error .malformedHeader
    ∧ parse_packet [0, 0, 0, 0, 1, 3, 0, 0, 0, 0] = .error .invalidMagic
    ∧ parse_packet [0xDE, 0xAD, 0xBE, 0xEF, 2, 3, 0, 0, 0, 0] =
        .error .unsupportedVersion
    ∧ parse_packet [0xDE, 0xAD, 0xBE, 0xEF, 1, 3, 0, 0, 0, 5] =
        .error .truncatedPayload :=
  ⟨parse_packet_failure_taxonomy.1 _ (by decide),
   parse_packet_failure_taxonomy.2.1 _ (by decide) (by decide),
   parse_packet_failure_taxonomy.2.2.1 _ (by decide) (by decide) (by decide),
   parse_packet_failure_taxonomy.2.2.2 _ (by decide) (by decide) (by decide)
     (by decide)⟩

/-- C10: `parse_packet` ignores trailing bytes — on any buffer whose
first 10 bytes form a valid header with payload length L and that holds
at least 10 + L bytes it succeeds with exactly bytes 10..10+L as payload,
discarding the rest; hence a buffer holding two complete framed messages
decodes to only the first. -/
theorem parse_packet_ignores_trailing :
    (∀ b : List Nat, 10 ≤ b.length → b.take 4 = MAGIC_BYTES →
      b.getD 4 0 = VERSION →
      10 + (b.getD 6 0 * 2 ^ 24 + b.getD 7 0 * 2 ^ 16 +
        b.getD 8 0 * 2 ^ 8 + b.getD 9 0) ≤ b.length →
      parse_packet b = .ok (b.getD 5 0,
        (b.drop 10).take (b.getD 6 0 * 2 ^ 24 + b.getD 7 0 * 2 ^ 16 +
          b.getD 8 0 * 2 ^ 8 + b.getD 9 0)))
    ∧ (∀ (t t2 : Nat) (P P2 : List Nat), P.length < 2 ^ 32 →
        parse_packet (create_packet t P ++ create_packet t2 P2) = .ok (t, P)) := by
  constructor
  · intro b h1 h2 h3 h4
    have h1' : ¬ b.length < 10 := by omega
    have h4' : ¬ b.length < 10 + (b.getD 6 0 * 2 ^ 24 + b.getD 7 0 * 2 ^ 16 +
        b.getD 8 0 * 2 ^ 8 + b.getD 9 0) := by omega
    simp only [parse_packet]
    rw [if_neg h1', if_neg (not_not_intro h2), if_neg (not_not_intro h3), if_neg h4']
  · intro t t2 P P2 hP
    exact parse_create_append t P (create_packet t2 P2) hP

/-- Witness for C10: a buffer holding two complete framed messages
decodes to only the first. -/
theorem parse_packet_ignores_trailing_witness :
    parse_packet (create_packet 3 [1, 2] ++ create_packet 4 [9, 9, 9]) =
      .ok (3, [1, 2]) :=
  parse_packet_ignores_trailing.2 3 4 [1, 2] [9, 9, 9] (by decide)

/-! ## Cipher lemmas -/

theorem keystream_length (key nonce : List Nat) (len : Nat) :
    (keystream key nonce len).length = len := by
  simp [keystream]

theorem gcmTag_length (key nonce ct : List Nat) :
    (gcmTag key nonce ct).length = 16 := by
  simp [gcmTag]

theorem zipWith_xor_cancel (M K : List Nat) (h : M.length ≤ K.length) :
    List.zipWith Nat.xor (List.zipWith Nat.xor M K) K = M := by
  induction M generalizing K with
  | nil => simp
  | cons a as ih =>
    cases K with
    | nil => simp at h
    | cons k ks =>
      simp only [List.zipWith, List.cons.injEq]
      exact ⟨Nat.xor_cancel_right k a, ih ks (by simpa using h)⟩

theorem encrypt_eq (e : VPNEncryption) (iv M : List Nat) :
    e.encrypt iv M =
      (iv ++ gcmTag e.key iv (List.zipWith Nat.xor M (keystream e.key iv M.length))) ++
        List.zipWith Nat.xor M (keystream e.key iv M.length) := rfl

theorem encrypt_length (e : VPNEncryption) (iv M : List Nat) (hiv : iv.length = 16) :
    (e.encrypt iv M).length = 32 + M.length := by
  rw [encrypt_eq]
  simp [hiv, gcmTag_length, List.length_zipWith, keystream_length]
  omega

theorem encrypt_take16 (e : VPNEncryption) (iv M : List Nat) (hiv : iv.length = 16) :
    (e.encrypt iv M).take 16 = iv := by
  rw [encrypt_eq, List.append_assoc]
  exact List.take_left' hiv

theorem encrypt_drop16_take16 (e : VPNEncryption) (iv M : List Nat)
    (hiv : iv.length = 16) :
    ((e.encrypt iv M).drop 16).take 16 =
      gcmTag e.key iv (List.zipWith Nat.xor M (keystream e.key iv M.length)) := by
  rw [encrypt_eq, List.append_assoc, List.drop_left' hiv]
  exact List.take_left' (gcmTag_length _ _ _)

theorem encrypt_drop32 (e : VPNEncryption) (iv M : List Nat) (hiv : iv.length = 16) :
    (e.encrypt iv M).drop 32 = List.zipWith Nat.xor M (keystream e.key iv M.length) := by
  rw [encrypt_eq]
  refine List.drop_left' ?_
  simp [hiv, gcmTag_length]

/-- `decrypt` inverts `encrypt` on the same engine (same key), for any
16-byte nonce. -/
theorem decrypt_encrypt_ok (e : VPNEncryption) (iv M : List Nat)
    (hiv : iv.length = 16) :
    e.decrypt (e.encrypt iv M) = .ok M := by
  have hct : ((e.encrypt iv M).drop 32).length = M.length := by
    rw [encrypt_drop32 e iv M hiv]
    simp [List.length_zipWith, keystream_length]
  rw [VPNEncryption.decrypt]
  simp only [AES_IV_SIZE]
  rw [if_neg (by rw [encrypt_length e iv M hiv]; omega)]
  rw [encrypt_take16 e iv M hiv, encrypt_drop16_take16 e iv M hiv,
    encrypt_drop32 e iv M hiv, if_pos rfl]
  rw [show (List.zipWith Nat.xor M (keystream e.key iv M.length)).length = M.length by
    simp [List.length_zipWith, keystream_length]]
  rw [zipWith_xor_cancel M (keystream e.key iv M.length)
    (by rw [keystream_length])]

/-- C2: Cipher round-trip — for every plaintext M and every password W,
`decrypt (encrypt M)` on the same `VPNEncryption` instance returns M
(the fresh 16-byte nonce drawn by `encrypt` is passed explicitly). -/
theorem cipher_roundtrip (W : String) (salt iv M : List Nat)
    (hiv : iv.length = 16) :
    (VPNEncryption.create W salt).decrypt
      ((VPNEncryption.create W salt).encrypt iv M) = .ok M :=
  decrypt_encrypt_ok (VPNEncryption.create W salt) iv M hiv

/-- Witness for C2 at a concrete password, salt, nonce and plaintext. -/
theorem cipher_roundtrip_witness :
    (VPNEncryption.create "admin123" (List.replicate 16 7)).decrypt
      ((VPNEncryption.create "admin123" (List.replicate 16 7)).encrypt
        (List.replicate 16 0) [1, 2, 3]) = .ok [1, 2, 3] :=
  cipher_roundtrip "admin123" (List.replicate 16 7) (List.replicate 16 0)
    [1, 2, 3] (by decide)

/-- C5: Decrypt failure cases — `decrypt` fails with `invalidCiphertext`
on any blob shorter than 32 bytes (16-byte nonce plus 16-byte tag), and
on a blob produced by `encrypt` under one engine's key it fails with
`authenticationFailure` on any engine whose key makes the recomputed GCM
tag differ (as a wrong password's key does, barring a tag collision),
never returning plaintext. -/
theorem decrypt_failure_cases :
    (∀ (e : VPNEncryption) (b : List Nat), b.length < 32 →
      e.decrypt b = .error .invalidCiphertext)
    ∧ (∀ (e1 e2 : VPNEncryption) (iv M : List Nat), iv.length = 16 →
        gcmTag e2.key iv (List.zipWith Nat.xor M (keystream e1.key iv M.length)) ≠
          gcmTag e1.key iv (List.zipWith Nat.xor M (keystream e1.key iv M.length)) →
        e2.decrypt (e1.encrypt iv M) = .error .authenticationFailure) := by
  constructor
  · intro e b hb
    rw [VPNEncryption.decrypt]
    simp only [AES_IV_SIZE]
    rw [if_pos (by omega)]
  · intro e1 e2 iv M hiv htag
    rw [VPNEncryption.decrypt]
    simp only [AES_IV_SIZE]
    rw [if_neg (by rw [encrypt_length e1 iv M hiv]; omega)]
    rw [encrypt_take16 e1 iv M hiv, encrypt_drop16_take16 e1 iv M hiv,
      encrypt_drop32 e1 iv M hiv, if_neg htag]

/-- Witness for C5: a short blob is rejected as `invalidCiphertext`, and
a blob encrypted under the key for password "admin123" is rejected as
`authenticationFailure` by the engine for password "wrong" with the very
same salt. -/
theorem decrypt_failure_cases_witness :
    (VPNEncryption.create "admin123" (List.replicate 16 7)).decrypt [1, 2, 3] =
      .error .invalidCiphertext
    ∧ (VPNEncryption.create "wrong" (List.replicate 16 7)).decrypt
        ((VPNEncryption.create "admin123" (List.replicate 16 7)).encrypt
          (List.replicate 16 0) [1, 2, 3]) = .error .authenticationFailure :=
  ⟨decrypt_failure_cases.1 _ _ (by decide),
   decrypt_failure_cases.2 _ _ _ _ (by decide) (by decide)⟩

/-- C7: Encryption non-determinism under fresh nonces — two calls to
`encrypt` on the same engine that draw distinct 16-byte nonces produce
different blobs, each structured as nonce ++ 16-byte tag ++ ciphertext,
and both blobs decrypt to the plaintext under the same engine. -/
theorem encrypt_nonce_freshness (e : VPNEncryption) (iv1 iv2 M : List Nat)
    (h1 : iv1.length = 16) (h2 : iv2.length = 16) (hne : iv1 ≠ iv2) :
    e.encrypt iv1 M ≠ e.encrypt iv2 M
    ∧ e.encrypt iv1 M =
        iv1 ++ gcmTag e.key iv1 (List.zipWith Nat.xor M (keystream e.key iv1 M.length)) ++
          List.zipWith Nat.xor M (keystream e.key iv1 M.length)
    ∧ e.encrypt iv2 M =
        iv2 ++ gcmTag e.key iv2 (List.zipWith Nat.xor M (keystream e.key iv2 M.length)) ++
          List.zipWith Nat.xor M (keystream e.key iv2 M.length)
    ∧ e.decrypt (e.encrypt iv1 M) = .ok M
    ∧ e.decrypt (e.encrypt iv2 M) = .ok M := by
  refine ⟨?_, encrypt_eq e iv1 M, encrypt_eq e iv2 M,
    decrypt_encrypt_ok e iv1 M h1, decrypt_encrypt_ok e iv2 M h2⟩
  intro hEq
  apply hne
  have h := congrArg (List.take 16) hEq
  rwa [encrypt_take16 e iv1 M h1, encrypt_take16 e iv2 M h2] at h

/-- Witness for C7 at two concrete distinct nonces. -/
theorem encrypt_nonce_freshness_witness :
    (VPNEncryption.create "user1" (List.replicate 16 2)).encrypt
        (List.replicate 16 0) [5, 6] ≠
      (VPNEncryption.create "user1" (List.replicate 16 2)).encrypt
        (1 :: List.replicate 15 0) [5, 6]
    ∧ (VPNEncryption.create "user1" (List.replicate 16 2)).decrypt
        ((VPNEncryption.create "user1" (List.replicate 16 2)).encrypt
          (List.replicate 16 0) [5, 6]) = .ok [5, 6] :=
  ⟨(encrypt_nonce_freshness (VPNEncryption.create "user1" (List.replicate 16 2))
      (List.replicate 16 0) (1 :: List.replicate 15 0) [5, 6]
      (by decide) (by decide) (by decide)).1,
   (encrypt_nonce_freshness (VPNEncryption.create "user1" (List.replicate 16 2))
      (List.replicate 16 0) (1 :: List.replicate 15 0) [5, 6]
      (by decide) (by decide) (by decide)).2.2.2.1⟩

/-! ## Trial-decryption lemmas -/

/-- The trial-decryption loop returns `none` exactly when no directory
entry's password yields a verifying decryption with a matching username. -/
theorem tryAuth_none_iff (salt payload : List Nat) (users : List (String × String)) :
    tryAuth salt payload users = none ↔
      ∀ e ∈ users, ∀ pt, (VPNEncryption.create e.2 salt).decrypt payload = .ok pt →
        jsonUsername pt ≠ some (strToBytes e.1) := by
  induction users with
  | nil => simp [tryAuth]
  | cons hd tl ih =>
    obtain ⟨u, p⟩ := hd
    simp only [tryAuth]
    split
    next pt hdec =>
      by_cases hju : jsonUsername pt = some (strToBytes u)
      · rw [if_pos hju]
        constructor
        · intro h
          exact absurd h (by simp)
        · intro h
          exact absurd hju (h (u, p) (by simp) pt hdec)
      · rw [if_neg hju, ih]
        constructor
        · intro h
          intro e he pt' hdec'
          rcases List.mem_cons.1 he with he1 | he2
          · subst he1
            rw [hdec] at hdec'
            cases hdec'
            exact hju
          · exact h e he2 pt' hdec'
        · intro h e he pt' hdec'
          exact h e (List.mem_cons_of_mem _ he) pt' hdec'
    next err hdec =>
      rw [ih]
      constructor
      · intro h e he pt' hdec'
        rcases List.mem_cons.1 he with he1 | he2
        · subst he1
          rw [hdec] at hdec'
          cases hdec'
        · exact h e he2 pt' hdec'
      · intro h e he pt' hdec'
        exact h e (List.mem_cons_of_mem _ he) pt' hdec'

/-- When the trial-decryption loop hits, the hit is a directory entry
whose engine decrypts the payload into a matching username, and the loop
returns that username with that engine. -/
theorem tryAuth_some (salt payload : List Nat) (users : List (String × String))
    (h : tryAuth salt payload users ≠ none) :
    ∃ u p, (u, p) ∈ users ∧
      tryAuth salt payload users = some (u, VPNEncryption.create p salt) ∧
      ∃ pt, (VPNEncryption.create p salt).decrypt payload = .ok pt ∧
        jsonUsername pt = some (strToBytes u) := by
  induction users with
  | nil => simp [tryAuth] at h
  | cons hd tl ih =>
    obtain ⟨u, p⟩ := hd
    simp only [tryAuth] at h
    split at h
    next pt hdec =>
      rw [show (tryAuth salt payload ((u, p) :: tl) : Option (String × VPNEncryption)) =
        (if jsonUsername pt = some (strToBytes u) then
          some (u, VPNEncryption.create p salt) else tryAuth salt payload tl) from by
          simp only [tryAuth]; rw [hdec]]
      by_cases hju : jsonUsername pt = some (strToBytes u)
      · rw [if_pos hju] at h ⊢
        exact ⟨u, p, by simp, rfl, pt, hdec, hju⟩
      · rw [if_neg hju] at h ⊢
        obtain ⟨u', p', hmem, heq, hpt⟩ := ih h
        exact ⟨u', p', List.mem_cons_of_mem _ hmem, heq, hpt⟩
    next err hdec =>
      rw [show (tryAuth salt payload ((u, p) :: tl) : Option (String × VPNEncryption)) =
        tryAuth salt payload tl from by simp only [tryAuth]; rw [hdec]]
      obtain ⟨u', p', hmem, heq, hpt⟩ := ih h
      exact ⟨u', p', List.mem_cons_of_mem _ hmem, heq, hpt⟩

/-- C1: Server trial-decryption authentication — after a handshake stored
the client's salt, if some directory entry (u, p) decrypts the Auth
payload under the key derived from (p, salt) into a JSON object whose
username field equals u, the server sets the session's username to (the
first) such u, fixes the session's engine to that derived key, sets the
authenticated flag and replies AuthSuccess; if no entry verifies, it
replies AuthFailure, the session (authenticated flag included) is
unchanged and the running flag is untouched (the connection is not
closed by the server). -/
theorem auth_trial_decryption (s : Session) (salt payload : List Nat)
    (hsalt : s.client_salt = some salt) :
    ((∃ u p, (u, p) ∈ s.users ∧ ∃ pt,
        (VPNEncryption.create p salt).decrypt payload = .ok pt ∧
        jsonUsername pt = some (strToBytes u)) →
      ∃ u p, (u, p) ∈ s.users ∧ (∃ pt,
        (VPNEncryption.create p salt).decrypt payload = .ok pt ∧
        jsonUsername pt = some (strToBytes u)) ∧
      handle_auth s payload =
        ({ s with
            username := some u
            encryption := some (VPNEncryption.create p salt)
            authenticated := true },
         [(MSG_AUTH_SUCCESS, [])]))
    ∧ ((∀ u p, (u, p) ∈ s.users → ∀ pt,
          (VPNEncryption.create p salt).decrypt payload = .ok pt →
          jsonUsername pt ≠ some (strToBytes u)) →
        handle_auth s payload = (s, [(MSG_AUTH_FAILURE, [])])) := by
  constructor
  · intro hex
    have hnone : tryAuth salt payload s.users ≠ none := by
      rw [Ne, tryAuth_none_iff]
      intro hall
      obtain ⟨u, p, hmem, pt, hdec, hju⟩ := hex
      exact hall (u, p) hmem pt hdec hju
    obtain ⟨u, p, hmem, heq, pt, hdec, hju⟩ := tryAuth_some salt payload s.users hnone
    refine ⟨u, p, hmem, ⟨pt, hdec, hju⟩, ?_⟩
    rw [handle_auth, hsalt]
    show (match tryAuth salt payload s.users with
      | some (username, temp) =>
        ({ users := s.users
           client_salt := some salt
           encryption := some temp
           authenticated := true
           username := some username
           running := s.running : Session },
         ([(MSG_AUTH_SUCCESS, [])] : List (Nat × List Nat)))
      | none => (s, [(MSG_AUTH_FAILURE, [])])) = _
    rw [heq]
  · intro hall
    have hnone : tryAuth salt payload s.users = none := by
      rw [tryAuth_none_iff]
      intro e he pt hdec
      exact hall e.1 e.2 (by simpa using he) pt hdec
    rw [handle_auth, hsalt]
    show (match tryAuth salt payload s.users with
      | some (username, temp) =>
        ({ users := s.users
           client_salt := some salt
           encryption := some temp
           authenticated := true
           username := some username
           running := s.running : Session },
         ([(MSG_AUTH_SUCCESS, [])] : List (Nat × List Nat)))
      | none => (s, [(MSG_AUTH_FAILURE, [])])) = _
    rw [hnone]

/-- C6: Echo postcondition — on an authenticated session whose engine
decrypts the Data payload to the bytes of plaintext M, the server sends
back exactly one Data message whose payload is the encryption of
"Echo: " prepended to M, and that payload decrypts under the same
session key to exactly those bytes. -/
theorem data_echo (s : Session) (enc : VPNEncryption)
    (echoNonce payload : List Nat) (M : String)
    (hauth : s.authenticated = true) (henc : s.encryption = some enc)
    (hdec : enc.decrypt payload = .ok (strToBytes M))
    (hnonce : echoNonce.length = 16) :
    handle_data s echoNonce payload =
      (s, [(MSG_DATA, enc.encrypt echoNonce (strToBytes ("Echo: " ++ M)))])
    ∧ enc.decrypt (enc.encrypt echoNonce (strToBytes ("Echo: " ++ M))) =
        .ok (strToBytes ("Echo: " ++ M)) := by
  have hcat : strToBytes ("Echo: " ++ M) = strToBytes "Echo: " ++ strToBytes M := by
    simp [strToBytes, String.data_append]
  constructor
  · rw [handle_data, if_neg (by rw [hauth]; simp), henc]
    simp only []
    rw [hdec]
    rw [hcat]
  · exact decrypt_encrypt_ok enc echoNonce _ hnonce

/-- C8: Silent drop of unauthenticated Data — while the session's
authenticated flag is false, a Data message produces no response of any
type and leaves the entire session state (authenticated flag, username,
key material, running flag) unchanged. -/
theorem unauthenticated_data_dropped (s : Session) (echoNonce payload : List Nat)
    (h : s.authenticated = false) :
    handle_data s echoNonce payload = (s, []) := by
  rw [handle_data, if_pos h]

/-- Witness for C8 on a fresh session. -/
theorem unauthenticated_data_dropped_witness :
    handle_data (Session.init [("admin", "admin123")]) (List.replicate 16 0) [1, 2, 3] =
      (Session.init [("admin", "admin123")], []) :=
  unauthenticated_data_dropped (Session.init [("admin", "admin123")])
    (List.replicate 16 0) [1, 2, 3] rfl

/-- C9: Silent drop of mismatched-version handshake — a Handshake whose
client_version differs from the server's VERSION produces no response
and does not record the client's salt (the session is unchanged); only
an equal version records the salt and replies with a Handshake carrying
the server version and status ok. -/
theorem handshake_version_check (s : Session) (v : Option Nat) (salt : List Nat) :
    (v ≠ some VERSION → handle_handshake s v salt = (s, []))
    ∧ (v = some VERSION → handle_handshake s v salt =
        ({ s with client_salt := some salt }, [(MSG_HANDSHAKE, handshakeOkBytes)])) := by
  constructor
  · intro h
    rw [handle_handshake, if_pos h]
  · intro h
    rw [handle_handshake, if_neg (by simp [h])]

/-- Witness for C9: version 2 is dropped silently, version 1 records the
salt and answers. -/
theorem handshake_version_check_witness :
    handle_handshake (Session.init [("admin", "admin123")]) (some 2) [9] =
      (Session.init [("admin", "admin123")], [])
    ∧ handle_handshake (Session.init [("admin", "admin123")]) (some 1) [9] =
        ({ Session.init [("admin", "admin123")] with client_salt := some [9] },
         [(MSG_HANDSHAKE, handshakeOkBytes)]) :=
  ⟨(handshake_version_check (Session.init [("admin", "admin123")]) (some 2) [9]).1
      (by decide),
   (handshake_version_check (Session.init [("admin", "admin123")]) (some 1) [9]).2 rfl⟩

/-! ## Concrete scenario data for the witnesses -/

/-- A post-handshake server session with directory `admin → admin123`. -/
def authSession : Session :=
  { users := [("admin", "admin123")]
    client_salt := some (List.replicate 16 7)
    encryption := none
    authenticated := false
    username := none
    running := true }

/-- An Auth payload carrying username `admin`, encrypted under the key
derived from ("admin123", the session's salt). -/
def goodAuthPayload : List Nat :=
  (VPNEncryption.create "admin123" (List.replicate 16 7)).encrypt
    (List.replicate 16 0) (authBytes (strToBytes "admin") 12345)

/-- Witness for C1: the payload for `admin`/`admin123` authenticates the
session, and the empty payload draws AuthFailure with the session
unchanged. -/
theorem auth_trial_decryption_witness :
    (∃ u p, (u, p) ∈ authSession.users ∧ (∃ pt,
        (VPNEncryption.create p (List.replicate 16 7)).decrypt goodAuthPayload =
          .ok pt ∧
        jsonUsername pt = some (strToBytes u)) ∧
      handle_auth authSession goodAuthPayload =
        ({ authSession with
            username := some u
            encryption := some (VPNEncryption.create p (List.replicate 16 7))
            authenticated := true },
         [(MSG_AUTH_SUCCESS, [])]))
    ∧ handle_auth authSession [] = (authSession, [(MSG_AUTH_FAILURE, [])]) :=
  ⟨(auth_trial_decryption authSession (List.replicate 16 7) goodAuthPayload rfl).1
      ⟨"admin", "admin123", by decide,
        authBytes (strToBytes "admin") 12345,
        decrypt_encrypt_ok _ _ _ (by decide), by decide⟩,
   (auth_trial_decryption authSession (List.replicate 16 7) [] rfl).2
      (fun u p hmem pt hdec => by
        rw [show authSession.users = [("admin", "admin123")] from rfl,
          List.mem_singleton] at hmem
        rw [show p = "admin123" from congrArg Prod.snd hmem] at hdec
        rw [show (VPNEncryption.create "admin123" (List.replicate 16 7)).decrypt
            ([] : List Nat) = .error .invalidCiphertext from rfl] at hdec
        cases hdec)⟩

/-- Witness for C6: plaintext "hello" yields an echo Data message that
decrypts to "Echo: hello" under the session key. -/
theorem data_echo_witness :
    handle_data
        { users := [("admin", "admin123")]
          client_salt := some (List.replicate 16 7)
          encryption := some (VPNEncryption.create "admin123" (List.replicate 16 7))
          authenticated := true
          username := some "admin"
          running := true }
        (List.replicate 16 1)
        ((VPNEncryption.create "admin123" (List.replicate 16 7)).encrypt
          (List.replicate 16 0) (strToBytes "hello")) =
      ({ users := [("admin", "admin123")]
         client_salt := some (List.replicate 16 7)
         encryption := some (VPNEncryption.create "admin123" (List.replicate 16 7))
         authenticated := true
         username := some "admin"
         running := true },
       [(MSG_DATA, (VPNEncryption.create "admin123" (List.replicate 16 7)).encrypt
          (List.replicate 16 1) (strToBytes ("Echo: " ++ "hello")))])
    ∧ (VPNEncryption.create "admin123" (List.replicate 16 7)).decrypt
        ((VPNEncryption.create "admin123" (List.replicate 16 7)).encrypt
          (List.replicate 16 1) (strToBytes ("Echo: " ++ "hello"))) =
        .ok (strToBytes ("Echo: " ++ "hello")) :=
  data_echo _ _ _ _ "hello" rfl rfl
    (decrypt_encrypt_ok _ _ _ (by decide)) (by decide)

end FosenVPN
